import Mathlib

/-!
Shallow embedding of the connection-handling core of the aioshadowsocks
repository (src/shadowsocks/handlers.py and src/shadowsocks/cryptor.py).

The per-connection object `LocalHandler` is embedded as a Lean structure;
each Python method becomes a pure function from the handler state (plus an
environment holding the external collaborators: admission control,
transport-write outcome, outbound-connection outcome) to the new handler
state together with a trace of observable effects (log lines, sentry
captures, transport and remote-peer calls, scheduled coroutines).

External objects (the asyncio transport, the remote peer, the pool, the
sentry client) live outside src/, so their method calls are recorded as
effects rather than modelled in depth.  Python exception flow is embedded
explicitly: an expression that raises is an `Except PyError` value, and the
try/except structure of each method is mirrored by matches on it.
-/

namespace SS

/-- A byte string, as a list of byte values. -/
abbrev Bytes := List Nat

/-- The Python exception classes that the handler code distinguishes. -/
inductive PyError
  | runtimeError
  | notImplementedError
  | typeError
  | attributeError
  | structError
  | valueError
  | ioError
  | memoryError
  deriving Repr, DecidableEq

/-- Modelled from the spec: the `protocol_flag` module is not under src/;
the spec (section 6) fixes the transport kinds TCP and UDP, which the
handler stores in `_transport_protocol` and compares by equality. -/
inductive TransportProtocol
  | tcp
  | udp
  deriving Repr, DecidableEq

/-- Modelled from the spec: address-type tag for IPv4; the spec (section 6)
gives the wire tag 4 for IPv4 (`protocol_flag` is not under src/). -/
def ATYPE_IPV4 : Nat := 4

/-- Modelled from the spec: address-type tag for DomainName
(domain-length-prefixed); chosen distinct from the other two tags, which is
all the handler code relies on. -/
def ATYPE_DOMAINNAME : Nat := 3

/-- Modelled from the spec: address-type tag for IPv6 (the spec calls it
an other fixed value, distinct from the IPv4 and DomainName tags). -/
def ATYPE_IPV6 : Nat := 1

/-- handlers.py line 48: `STAGE_INIT = 0`. -/
def STAGE_INIT : Int := 0

/-- handlers.py line 49: `STAGE_CONNECT = 1`. -/
def STAGE_CONNECT : Int := 1

/-- handlers.py line 50: `STAGE_STREAM = 2`. -/
def STAGE_STREAM : Int := 2

/-- handlers.py line 51: `STAGE_DESTROY = -1`. -/
def STAGE_DESTROY : Int := -1

/-- handlers.py line 52: `STAGE_ERROR = 255`. -/
def STAGE_ERROR : Int := 255

/-- The subscriber record the handler mutates (spec section 3); owned by the
external user store, referenced by the handler.  Counters are Python ints,
embedded as `Int`. -/
structure User where
  user_id : Nat
  tcp_count : Int
  once_used_u : Int
  once_used_d : Int
  deriving Repr, DecidableEq

/-- Observable actions of a handler method: log lines, sentry captures,
calls on the client transport and on the remote peer, and coroutines handed
to `asyncio.ensure_future`. -/
inductive Effect
  | logDebug (msg : String)
  | logWarning (msg : String)
  | sentryCapture
  | transportClose
  | transportWrite (data : Bytes)
  | transportSendto (data : Bytes)
  | remoteWrite (data : Bytes)
  | remoteClose
  | scheduleKeepAlive
  | scheduleInit (data : Bytes)
  | scheduleConnect (data : Bytes)
  | scheduleUdpEndpoint (addr : Bytes) (port : Nat) (payload : Bytes)
  | connectRemote (addr : Bytes) (port : Nat) (payload : Bytes)
  | addUserToJail (uid : Nat)
  | keepAliveActive
  | sleep
  deriving Repr, DecidableEq

/-- cryptor.py lines 8-34: a constructed Cryptor holds the selected cipher
instance; the concrete ciphers (crypto/aes.py, crypto/none.py) are outside
src/, so the cipher is embedded as its raw decrypt function, which may
raise any exception. -/
structure Cryptor where
  decryptRaw : Bytes → Except PyError Bytes

/-- cryptor.py lines 39-43: `decrypt` calls the cipher and re-raises any
exception as `RuntimeError`. -/
def Cryptor.decrypt (c : Cryptor) (data : Bytes) : Except PyError Bytes :=
  match c.decryptRaw data with
  | Except.ok plain => Except.ok plain
  | Except.error _ => Except.error PyError.runtimeError

/-- handlers.py lines 132 and 151 call `Cryptor(self._method, self._key)`
with two arguments, but cryptor.py line 13 declares
`def __init__(self, method, password, flag)` with three required
parameters: in Python this call raises `TypeError` (missing positional
argument `flag`) before the constructor body runs. -/
def cryptorCallTwoArgs (method password : String) : Except PyError Cryptor :=
  Except.error PyError.typeError

/-- The per-connection state machine, handlers.py lines 37-66 (`LocalHandler`
extending `TimeoutHandler`).  The client transport, peer name and remote
peer are external objects, embedded as opaque references (present/absent).
The `_last_active_time` and `_timeout_limit` fields drive only the
keep-alive loop, which is embedded separately as `keepAliveRun`. -/
structure LocalHandler where
  user : User
  method : String
  key : String
  remote : Option Unit
  cryptor : Option Cryptor
  peername : Option Unit
  transport : Option Unit
  transport_protocol : Option TransportProtocol
  stage : Int

/-- handlers.py lines 54-66: `LocalHandler.__init__`; every reference field
starts absent and the stage starts at `STAGE_DESTROY`. -/
def mkLocalHandler (method password : String) (user : User) : LocalHandler :=
  { user := user
    method := method
    key := password
    remote := none
    cryptor := none
    peername := none
    transport := none
    transport_protocol := none
    stage := STAGE_DESTROY }

/-- External collaborators consulted by the handler: the admission check
`pool.filter_user`, whether the transport write raises `MemoryError` on
this call, and the outcome of the awaited outbound TCP connection. -/
inductive ConnectOutcome
  | success
  | ioError
  | otherError
  deriving Repr, DecidableEq

structure Env where
  filter_user : User → Bool
  write_raises_memory_error : Bool
  connect_outcome : ConnectOutcome

/-- handlers.py lines 68-84: `close`.  TCP: close the transport if present
and decrement the user TCP count if positive; UDP: nothing; no protocol
recorded yet: `raise NotImplementedError`, swallowed by the bare except as
a sentry capture.  Note the `_transport` reference is never cleared. -/
def LocalHandler.close (h : LocalHandler) : LocalHandler × List Effect :=
  match h.transport_protocol with
  | some TransportProtocol.tcp =>
    let effs := match h.transport with
      | some _ => [Effect.transportClose]
      | none => []
    let u := h.user
    let u2 := if 0 < u.tcp_count then { u with tcp_count := u.tcp_count - 1 } else u
    ({ h with user := u2 }, effs)
  | some TransportProtocol.udp => (h, [])
  | none => (h, [Effect.sentryCapture])

/-- handlers.py lines 86-109: `write`.  The admission check failing calls
`close()` but does not return (no early exit in the source), so the method
falls through to the transport write.  A `MemoryError` from the TCP write
jails the user and closes; a write on an absent transport raises
`AttributeError`, reaching the bare except (sentry). -/
def LocalHandler.write (h : LocalHandler) (env : Env) (data : Bytes) :
    LocalHandler × List Effect :=
  let filtered := if env.filter_user h.user then (h, ([] : List Effect)) else h.close
  let h0 := filtered.1
  let e0 := filtered.2
  match h0.transport_protocol with
  | some TransportProtocol.tcp =>
    match h0.transport with
    | none => (h0, e0 ++ [Effect.sentryCapture])
    | some _ =>
      if env.write_raises_memory_error then
        let closed := h0.close
        (closed.1,
          e0 ++ [Effect.logWarning "memory boom",
                 Effect.addUserToJail h0.user.user_id] ++ closed.2)
      else
        ({ h0 with user := { h0.user with
             once_used_d := h0.user.once_used_d + data.length } },
         e0 ++ [Effect.transportWrite data])
  | some TransportProtocol.udp =>
    match h0.transport with
    | none => (h0, e0 ++ [Effect.sentryCapture])
    | some _ => (h0, e0 ++ [Effect.transportSendto data])
  | none => (h0, e0 ++ [Effect.sentryCapture])

/-- handlers.py lines 111-138: `handle_tcp_connection_made`.  A rejected
user only gets the fresh transport closed; otherwise the handler records
the transport, enters `STAGE_INIT`, starts keep-alive supervision and
attempts the cryptor construction (the two-argument call of
`cryptorCallTwoArgs`): `NotImplementedError` would be answered by a warning
and `close()`, any other exception reaches the bare except (sentry). -/
def LocalHandler.handle_tcp_connection_made (h : LocalHandler) (env : Env) :
    LocalHandler × List Effect :=
  if env.filter_user h.user then
    let h1 := { h with
      stage := STAGE_INIT
      transport_protocol := some TransportProtocol.tcp
      transport := some ()
      peername := some () }
    let e1 := [Effect.scheduleKeepAlive]
    match cryptorCallTwoArgs h1.method h1.key with
    | Except.ok c =>
      ({ h1 with cryptor := some c }, e1 ++ [Effect.logDebug "tcp connection made"])
    | Except.error PyError.notImplementedError =>
      let closed := h1.close
      (closed.1, e1 ++ [Effect.logWarning "not support cipher"] ++ closed.2)
    | Except.error _ => (h1, e1 ++ [Effect.sentryCapture])
  else (h, [Effect.transportClose])

/-- handlers.py lines 140-157: `handle_udp_connection_made`; same cryptor
construction and failure handling as TCP, but no admission check and no
keep-alive supervision. -/
def LocalHandler.handle_udp_connection_made (h : LocalHandler) :
    LocalHandler × List Effect :=
  let h1 := { h with
    stage := STAGE_INIT
    transport := some ()
    transport_protocol := some TransportProtocol.udp
    peername := some () }
  match cryptorCallTwoArgs h1.method h1.key with
  | Except.ok c =>
    ({ h1 with cryptor := some c }, [Effect.logDebug "udp connection made"])
  | Except.error PyError.notImplementedError =>
    let closed := h1.close
    (closed.1, [Effect.logWarning "not support cipher"] ++ closed.2)
  | Except.error _ => (h1, [Effect.sentryCapture])

/-- handlers.py lines 287-293: `_handle_stage_stream`; logs, marks
keep-alive activity and writes to the remote peer; an absent remote makes
the write raise `AttributeError`, swallowed by the bare except. -/
def LocalHandler.handle_stage_stream (h : LocalHandler) (data : Bytes) :
    LocalHandler × List Effect :=
  match h.remote with
  | some _ =>
    (h, [Effect.logDebug "realy data", Effect.keepAliveActive,
         Effect.remoteWrite data])
  | none =>
    (h, [Effect.logDebug "realy data", Effect.keepAliveActive,
         Effect.sentryCapture])

/-- handlers.py lines 295-296: `_handle_stage_error` just closes. -/
def LocalHandler.handle_stage_error (h : LocalHandler) : LocalHandler × List Effect :=
  h.close

/-- handlers.py lines 169-180: the stage dispatch inside
`handle_data_received`.  INIT and CONNECT handlers are coroutines handed to
`asyncio.ensure_future`; STREAM and ERROR run synchronously; any other
stage value (in particular `STAGE_DESTROY`) only logs. -/
def LocalHandler.dispatch_stage (h : LocalHandler) (data : Bytes) :
    LocalHandler × List Effect :=
  if h.stage = STAGE_INIT then (h, [Effect.scheduleInit data])
  else if h.stage = STAGE_CONNECT then (h, [Effect.scheduleConnect data])
  else if h.stage = STAGE_STREAM then h.handle_stage_stream data
  else if h.stage = STAGE_ERROR then h.handle_stage_error
  else (h, [Effect.logWarning "unknown stage"])

/-- handlers.py lines 159-182: `handle_data_received`.  An absent cryptor
makes the decrypt call raise `AttributeError` (not `RuntimeError`), which
skips the inner except and reaches the bare except (sentry).  A decrypt
`RuntimeError` logs a warning and calls `close()` but does not return, so
the method continues with `data` still bound to the ciphertext: the upload
counter is increased by the ciphertext length and the stage dispatch still
runs. -/
def LocalHandler.handle_data_received (h : LocalHandler) (data : Bytes) :
    LocalHandler × List Effect :=
  match h.cryptor with
  | none => (h, [Effect.sentryCapture])
  | some c =>
    match c.decrypt data with
    | Except.ok plain =>
      let h1 := { h with user := { h.user with
        once_used_u := h.user.once_used_u + plain.length } }
      let dispatched := h1.dispatch_stage plain
      (dispatched.1, dispatched.2)
    | Except.error _ =>
      let closed := h.close
      let h2 := { closed.1 with user := { closed.1.user with
        once_used_u := closed.1.user.once_used_u + data.length } }
      let dispatched := h2.dispatch_stage data
      (dispatched.1, Effect.logWarning "decrypt data error" :: closed.2 ++ dispatched.2)

/-- handlers.py lines 184-186: `handle_eof_received`. -/
def LocalHandler.handle_eof_received (h : LocalHandler) : LocalHandler × List Effect :=
  let closed := h.close
  (closed.1, Effect.logDebug "eof received" :: closed.2)

/-- handlers.py lines 188-191: `handle_connection_lost` closes the remote
peer when one exists. -/
def LocalHandler.handle_connection_lost (h : LocalHandler) : LocalHandler × List Effect :=
  match h.remote with
  | some _ => (h, [Effect.logDebug "lost", Effect.remoteClose])
  | none => (h, [Effect.logDebug "lost"])

/-- `struct.unpack` with format `!H` requires exactly two bytes and decodes
them big-endian; anything else raises `struct.error`. -/
def unpackPortBE (s : Bytes) : Except PyError Nat :=
  match s with
  | [b0, b1] => Except.ok (b0 * 256 + b1)
  | _ => Except.error PyError.structError

/-- `socket.inet_ntop(AF_INET, s)` requires exactly four bytes (it raises
`ValueError` otherwise); the textual rendering is immaterial here, so the
address is kept as its bytes. -/
def inet_ntop4 (s : Bytes) : Except PyError Bytes :=
  if s.length = 4 then Except.ok s else Except.error PyError.valueError

/-- `socket.inet_ntop(AF_INET6, s)` requires exactly sixteen bytes. -/
def inet_ntop6 (s : Bytes) : Except PyError Bytes :=
  if s.length = 16 then Except.ok s else Except.error PyError.valueError

/-- handlers.py lines 226-261: the part of `_handle_stage_init` after the
header parse.  TCP: stage moves to CONNECT, the outbound connection is
attempted; on success the user TCP count is incremented, the remote
reference stored and stage set to STREAM; an `IOError`/`OSError` closes and
leaves stage DESTROY (debug log); any other exception closes and leaves
stage ERROR (warning log).  UDP: stage stays INIT and the datagram endpoint
coroutine is scheduled without awaiting. -/
def LocalHandler.stage_init_connect (h : LocalHandler) (env : Env)
    (addr : Bytes) (port : Nat) (payload : Bytes) : LocalHandler × List Effect :=
  match h.transport_protocol with
  | some TransportProtocol.tcp =>
    let h1 := { h with stage := STAGE_CONNECT }
    match env.connect_outcome with
    | ConnectOutcome.success =>
      let h2 := { h1 with user := { h1.user with
        tcp_count := h1.user.tcp_count + 1 } }
      ({ h2 with remote := some (), stage := STAGE_STREAM },
       [Effect.connectRemote addr port payload,
        Effect.logDebug "connection established"])
    | ConnectOutcome.ioError =>
      let closed := h1.close
      ({ closed.1 with stage := STAGE_DESTROY },
       Effect.connectRemote addr port payload ::
         Effect.logDebug "connection faild" :: closed.2)
    | ConnectOutcome.otherError =>
      let closed := h1.close
      ({ closed.1 with stage := STAGE_ERROR },
       Effect.connectRemote addr port payload ::
         Effect.logWarning "connection failed" :: closed.2)
  | some TransportProtocol.udp =>
    ({ h with stage := STAGE_INIT },
     [Effect.scheduleUdpEndpoint addr port payload])
  | none => (h, [Effect.sentryCapture])

/-- handlers.py lines 193-263: `_handle_stage_init`.  The first byte is the
address-type tag; IPv4 takes 4 address bytes and a 2-byte port, IPv6 takes
16 and 2, DomainName reads a length byte N, then `data[2:2+N]` (a Python
slice, silently truncated when short) and a 2-byte port at offset 2+N.  An
unknown tag warns and closes.  Any raised exception (empty data, short
address for `inet_ntop`, short port slice for `struct.unpack`) reaches the
bare except at lines 262-263: a sentry capture, nothing else. -/
def LocalHandler.handle_stage_init (h : LocalHandler) (env : Env) (data : Bytes) :
    LocalHandler × List Effect :=
  match data.head? with
  | none => (h, [Effect.sentryCapture])
  | some atype =>
    if atype = ATYPE_IPV4 then
      match inet_ntop4 ((data.drop 1).take 4) with
      | Except.error _ => (h, [Effect.sentryCapture])
      | Except.ok addr =>
        match unpackPortBE ((data.drop 5).take 2) with
        | Except.error _ => (h, [Effect.sentryCapture])
        | Except.ok port => h.stage_init_connect env addr port (data.drop 7)
    else if atype = ATYPE_IPV6 then
      match inet_ntop6 ((data.drop 1).take 16) with
      | Except.error _ => (h, [Effect.sentryCapture])
      | Except.ok addr =>
        match unpackPortBE ((data.drop 17).take 2) with
        | Except.error _ => (h, [Effect.sentryCapture])
        | Except.ok port => h.stage_init_connect env addr port (data.drop 19)
    else if atype = ATYPE_DOMAINNAME then
      match (data.drop 1).head? with
      | none => (h, [Effect.sentryCapture])
      | some n =>
        let addr := (data.drop 2).take n
        match unpackPortBE ((data.drop (2 + n)).take 2) with
        | Except.error _ => (h, [Effect.sentryCapture])
        | Except.ok port => h.stage_init_connect env addr port (data.drop (2 + n + 2))
    else
      let closed := h.close
      (closed.1, Effect.logWarning "unknown atype" :: closed.2)

/-- handlers.py lines 265-285: `_handle_stage_connect`.  A for-loop of 25
iterations: observing CONNECT sleeps 0.2 units; observing STREAM logs,
writes the held data to the remote (an absent remote raises
`AttributeError`, swallowed by the bare except) and returns; any other
observed stage only logs and the loop continues without sleeping.  A loop
that runs out logs the timeout warning.  The stage observed at each
iteration is abstracted as a function of the iteration index. -/
def stageConnectLoop (stageAt : Nat → Int) (remotePresent : Bool) (data : Bytes) :
    Nat → Nat → List Effect
  | 0, _ => [Effect.logWarning "time out to connect remote"]
  | fuel + 1, i =>
    if stageAt i = STAGE_CONNECT then
      Effect.sleep :: stageConnectLoop stageAt remotePresent data fuel (i + 1)
    else if stageAt i = STAGE_STREAM then
      if remotePresent then
        [Effect.logDebug "connection established", Effect.remoteWrite data]
      else
        [Effect.logDebug "connection established", Effect.sentryCapture]
    else
      Effect.logDebug "some error happed" ::
        stageConnectLoop stageAt remotePresent data fuel (i + 1)

/-- The whole `_handle_stage_connect` body: the loop entered with its full
budget of 25 iterations at index 0. -/
def LocalHandler.handle_stage_connect (h : LocalHandler) (stageAt : Nat → Int)
    (data : Bytes) : List Effect :=
  stageConnectLoop stageAt h.remote.isSome data 25 0

/-- handlers.py lines 27-34: `TimeoutHandler._keep_alive`.  Each iteration:
if the transport reference is absent the loop exits (no close); else if the
elapsed time since the last activity exceeds the limit, `close()` is
invoked and the loop breaks; else the task sleeps one tick.  Time is
discrete, one unit per sleep; `fuel` bounds the number of iterations
observed, `none` meaning the task is still running after that many.  The
result is (number of close() invocations, time of termination). -/
def keepAliveRun (transportPresent : Nat → Bool) (lastActive : Nat → Nat)
    (limit : Nat) : Nat → Nat → Option (Nat × Nat)
  | 0, _ => none
  | fuel + 1, t =>
    if transportPresent t then
      if limit < t - lastActive t then some (1, t)
      else keepAliveRun transportPresent lastActive limit fuel (t + 1)
    else some (0, t)

/-- Count of remote-peer writes in an effect trace. -/
def countRemoteWrites (effs : List Effect) : Nat :=
  effs.countP fun e => match e with
    | Effect.remoteWrite _ => true
    | _ => false

/-- Count of sleeps in an effect trace. -/
def countSleeps (effs : List Effect) : Nat :=
  effs.countP fun e => match e with
    | Effect.sleep => true
    | _ => false

/-! Concrete fixtures used to evaluate the embedded code on particular
inputs. -/

/-- An admission environment that always admits, with a succeeding
transport write and a succeeding outbound connection. -/
def envAllow : Env :=
  { filter_user := fun _ => true
    write_raises_memory_error := false
    connect_outcome := ConnectOutcome.success }

/-- An admission environment that always rejects. -/
def envDeny : Env :=
  { filter_user := fun _ => false
    write_raises_memory_error := false
    connect_outcome := ConnectOutcome.success }

/-- A sample user with one live TCP connection and some accumulated
traffic. -/
def aUser : User :=
  { user_id := 7, tcp_count := 1, once_used_u := 100, once_used_d := 200 }

/-- A cipher whose decryption always fails (any underlying exception is
re-raised by `Cryptor.decrypt` as `RuntimeError`). -/
def failCryptor : Cryptor :=
  { decryptRaw := fun _ => Except.error PyError.valueError }

/-- A cipher whose decryption strips a two-byte frame tag, so the plaintext
is shorter than the ciphertext. -/
def stripTwoCryptor : Cryptor :=
  { decryptRaw := fun data => Except.ok (data.drop 2) }

/-- A TCP handler sitting in `STAGE_INIT` with an open transport and a
working (but failing-to-decrypt) cipher. -/
def hInitFail : LocalHandler :=
  { user := aUser
    method := "aes-128-cfb"
    key := "pw"
    remote := none
    cryptor := some failCryptor
    peername := some ()
    transport := some ()
    transport_protocol := some TransportProtocol.tcp
    stage := STAGE_INIT }

/-- A TCP handler sitting in `STAGE_CONNECT` whose cipher fails to
decrypt. -/
def hConnectFail : LocalHandler :=
  { hInitFail with stage := STAGE_CONNECT }

/-- A TCP handler already destroyed (`STAGE_DESTROY`) but still holding a
working cipher. -/
def hDestroyed : LocalHandler :=
  { hInitFail with cryptor := some stripTwoCryptor, stage := STAGE_DESTROY }

/-- A plain TCP handler in `STAGE_INIT` with no cipher, as used for the
header-parsing scenarios. -/
def hParse : LocalHandler :=
  { hInitFail with cryptor := none }

/-- A freshly constructed handler, before any connection-made callback. -/
def hFresh : LocalHandler := mkLocalHandler "aes-128-cfb" "pw" aUser

/-- A TCP handler in full relay (`STAGE_STREAM`) with a remote peer and a
working cipher. -/
def hStreamOk : LocalHandler :=
  { hInitFail with
    cryptor := some stripTwoCryptor
    remote := some ()
    stage := STAGE_STREAM }

/-- A stage history for the connect-poll loop: CONNECT for the first three
observations, STREAM afterwards. -/
def sWit : Nat → Int := fun i => if i < 3 then STAGE_CONNECT else STAGE_STREAM

/-! Helper lemmas shared across the claim theorems. -/

/-- `close` never changes the stage. -/
theorem close_stage (h : LocalHandler) : (h.close).1.stage = h.stage := by
  unfold LocalHandler.close
  rcases h with ⟨u, m, k, r, c, p, t, tp, st⟩
  rcases tp with _ | tp
  · rfl
  · cases tp <;> simp

/-- `close` never changes the transport reference (handlers.py lines 68-84
close the transport object but keep `self._transport` set). -/
theorem close_transport (h : LocalHandler) : (h.close).1.transport = h.transport := by
  unfold LocalHandler.close
  rcases h with ⟨u, m, k, r, c, p, t, tp, st⟩
  rcases tp with _ | tp
  · rfl
  · cases tp <;> simp

/-- `close` never changes the upload counter. -/
theorem close_once_used_u (h : LocalHandler) :
    (h.close).1.user.once_used_u = h.user.once_used_u := by
  unfold LocalHandler.close
  rcases h with ⟨⟨i, tc, uu, ud⟩, m, k, r, c, p, t, tp, st⟩
  rcases tp with _ | tp
  · rfl
  · cases tp <;> simp <;> split <;> simp

/-- `close` keeps a nonnegative TCP count nonnegative. -/
theorem close_tcp_count_nonneg (h : LocalHandler) (hn : 0 ≤ h.user.tcp_count) :
    0 ≤ (h.close).1.user.tcp_count := by
  unfold LocalHandler.close
  rcases h with ⟨⟨i, tc, uu, ud⟩, m, k, r, c, p, t, tp, st⟩
  rcases tp with _ | tp
  · exact hn
  · cases tp
    · simp only []
      split <;> simp_all <;> omega
    · exact hn

/-- The effects of `close` are only a possible transport close or a sentry
capture: never a remote write, a schedule, or a transport write. -/
theorem close_effects_sub (h : LocalHandler) :
    (h.close).2 = [Effect.transportClose] ∨ (h.close).2 = [] ∨
      (h.close).2 = [Effect.sentryCapture] := by
  unfold LocalHandler.close
  rcases h with ⟨u, m, k, r, c, p, t, tp, st⟩
  rcases tp with _ | tp
  · right; right; rfl
  · cases tp
    · rcases t with _ | t
      · right; left; simp
      · left; simp
    · right; left; rfl

/-- `dispatch_stage` never changes the upload counter. -/
theorem dispatch_once_used_u (h : LocalHandler) (data : Bytes) :
    (h.dispatch_stage data).1.user.once_used_u = h.user.once_used_u := by
  unfold LocalHandler.dispatch_stage LocalHandler.handle_stage_stream
    LocalHandler.handle_stage_error
  split
  · rfl
  · split
    · rfl
    · split
      · rcases hr : h.remote with _ | r <;> simp [hr]
      · split
        · exact close_once_used_u h
        · rfl

/-- When the stage is not STREAM, the dispatch produces no remote write. -/
theorem dispatch_no_remote_write (h : LocalHandler) (data d : Bytes)
    (hs : h.stage ≠ STAGE_STREAM) :
    Effect.remoteWrite d ∉ (h.dispatch_stage data).2 := by
  unfold LocalHandler.dispatch_stage LocalHandler.handle_stage_error
  by_cases h0 : h.stage = STAGE_INIT
  · rw [if_pos h0]; simp
  · rw [if_neg h0]
    by_cases h1 : h.stage = STAGE_CONNECT
    · rw [if_pos h1]; simp
    · rw [if_neg h1, if_neg hs]
      by_cases h2 : h.stage = STAGE_ERROR
      · rw [if_pos h2]
        rcases close_effects_sub h with hc | hc | hc <;> rw [hc] <;> simp
      · rw [if_neg h2]; simp

/-- At `STAGE_DESTROY` the dispatch hits the final else branch: only the
unknown-stage warning, no handler. -/
theorem dispatch_destroy (h : LocalHandler) (data : Bytes)
    (hs : h.stage = STAGE_DESTROY) :
    h.dispatch_stage data = (h, [Effect.logWarning "unknown stage"]) := by
  unfold LocalHandler.dispatch_stage
  rw [hs]
  simp [STAGE_DESTROY, STAGE_INIT, STAGE_CONNECT, STAGE_STREAM, STAGE_ERROR]

/-- At `STAGE_DESTROY` the dispatch schedules no init or connect handler
and writes nothing to the remote peer. -/
theorem dispatch_destroy_no_sched (h : LocalHandler) (data d : Bytes)
    (hs : h.stage = STAGE_DESTROY) :
    Effect.scheduleInit d ∉ (h.dispatch_stage data).2 ∧
    Effect.scheduleConnect d ∉ (h.dispatch_stage data).2 ∧
    Effect.remoteWrite d ∉ (h.dispatch_stage data).2 := by
  rw [dispatch_destroy h data hs]
  refine ⟨?_, ?_, ?_⟩ <;> simp

/-- Whatever the stage, `handle_data_received` on a handler whose stage is
not STREAM produces no remote write in its trace. -/
theorem data_received_no_remote_write (h : LocalHandler) (data d : Bytes)
    (hs : h.stage ≠ STAGE_STREAM) :
    Effect.remoteWrite d ∉ (h.handle_data_received data).2 := by
  unfold LocalHandler.handle_data_received
  rcases hc : h.cryptor with _ | c
  · simp [hc]
  · rcases hd : c.decrypt data with e | plain
    · simp only [hc, hd]
      intro hmem
      rcases List.mem_cons.mp hmem with hmem | hmem
      · exact Effect.noConfusion hmem
      · rcases List.mem_append.mp hmem with hmem | hmem
        · rcases close_effects_sub h with hcl | hcl | hcl <;>
            rw [hcl] at hmem <;> simp at hmem
        · refine dispatch_no_remote_write _ data d ?_ hmem
          show ¬((h.close).1.stage = STAGE_STREAM)
          rw [close_stage]
          exact hs
    · simp only [hc, hd]
      exact dispatch_no_remote_write _ plain d hs

/-- A chunk delivered at `STAGE_DESTROY` is dispatched to no stage
handler: no scheduled init or connect coroutine and no relay. -/
theorem data_received_destroy_no_dispatch (h : LocalHandler) (data d : Bytes)
    (hs : h.stage = STAGE_DESTROY) :
    Effect.scheduleInit d ∉ (h.handle_data_received data).2 ∧
    Effect.scheduleConnect d ∉ (h.handle_data_received data).2 ∧
    Effect.remoteWrite d ∉ (h.handle_data_received data).2 := by
  unfold LocalHandler.handle_data_received
  rcases hc : h.cryptor with _ | c
  · simp [hc]
  · rcases hd : c.decrypt data with e | plain
    · simp only [hc, hd]
      refine ⟨?_, ?_, ?_⟩
      · intro hmem
        rcases List.mem_cons.mp hmem with hmem | hmem
        · exact Effect.noConfusion hmem
        · rcases List.mem_append.mp hmem with hmem | hmem
          · rcases close_effects_sub h with hcl | hcl | hcl <;>
              rw [hcl] at hmem <;> simp at hmem
          · refine (dispatch_destroy_no_sched _ data d ?_).1 hmem
            show (h.close).1.stage = STAGE_DESTROY
            rw [close_stage]
            exact hs
      · intro hmem
        rcases List.mem_cons.mp hmem with hmem | hmem
        · exact Effect.noConfusion hmem
        · rcases List.mem_append.mp hmem with hmem | hmem
          · rcases close_effects_sub h with hcl | hcl | hcl <;>
              rw [hcl] at hmem <;> simp at hmem
          · refine (dispatch_destroy_no_sched _ data d ?_).2.1 hmem
            show (h.close).1.stage = STAGE_DESTROY
            rw [close_stage]
            exact hs
      · intro hmem
        rcases List.mem_cons.mp hmem with hmem | hmem
        · exact Effect.noConfusion hmem
        · rcases List.mem_append.mp hmem with hmem | hmem
          · rcases close_effects_sub h with hcl | hcl | hcl <;>
              rw [hcl] at hmem <;> simp at hmem
          · refine (dispatch_destroy_no_sched _ data d ?_).2.2 hmem
            show (h.close).1.stage = STAGE_DESTROY
            rw [close_stage]
            exact hs
    · simp only [hc, hd]
      exact dispatch_destroy_no_sched _ plain d hs

/-- A successfully decrypted chunk adds exactly the plaintext length to the
upload counter (the later dispatch never touches it). -/
theorem data_received_ok_once_used_u (h : LocalHandler) (c : Cryptor)
    (data plain : Bytes) (hc : h.cryptor = some c)
    (hd : c.decrypt data = Except.ok plain) :
    (h.handle_data_received data).1.user.once_used_u
      = h.user.once_used_u + plain.length := by
  unfold LocalHandler.handle_data_received
  simp only [hc, hd]
  rw [dispatch_once_used_u]

/-- A chunk whose decryption fails adds exactly the ciphertext length to
the upload counter (`close` and the dispatch never touch it). -/
theorem data_received_err_once_used_u (h : LocalHandler) (c : Cryptor)
    (data : Bytes) (e : PyError) (hc : h.cryptor = some c)
    (hd : c.decrypt data = Except.error e) :
    (h.handle_data_received data).1.user.once_used_u
      = h.user.once_used_u + data.length := by
  unfold LocalHandler.handle_data_received
  simp only [hc, hd]
  rw [dispatch_once_used_u]
  simp [close_once_used_u]

/-- The keep-alive loop closes at most once per run. -/
theorem keepAliveRun_close_le_one (T : Nat → Bool) (L : Nat → Nat) (lim : Nat) :
    ∀ (fuel t c tt : Nat), keepAliveRun T L lim fuel t = some (c, tt) → c ≤ 1 := by
  intro fuel
  induction fuel with
  | zero => intro t c tt hr; simp [keepAliveRun] at hr
  | succ n ih =>
    intro t c tt hr
    unfold keepAliveRun at hr
    by_cases hT : T t
    · rw [if_pos hT] at hr
      by_cases hlim : lim < t - L t
      · rw [if_pos hlim] at hr
        obtain ⟨h1, h2⟩ := by simpa using hr
        omega
      · rw [if_neg hlim] at hr
        exact ih (t + 1) c tt hr
    · rw [if_neg hT] at hr
      obtain ⟨h1, h2⟩ := by simpa using hr
      omega

/-- Once the keep-alive loop has terminated under some fuel, more fuel
gives the same result. -/
theorem keepAliveRun_mono (T : Nat → Bool) (L : Nat → Nat) (lim : Nat) :
    ∀ (f1 f2 t : Nat) (r : Nat × Nat), f1 ≤ f2 →
      keepAliveRun T L lim f1 t = some r → keepAliveRun T L lim f2 t = some r := by
  intro f1
  induction f1 with
  | zero => intro f2 t r hle hr; simp [keepAliveRun] at hr
  | succ n ih =>
    intro f2 t r hle hr
    obtain ⟨m, rfl⟩ : ∃ m, f2 = m + 1 := ⟨f2 - 1, by omega⟩
    unfold keepAliveRun at hr ⊢
    by_cases hT : T t
    · rw [if_pos hT] at hr ⊢
      by_cases hlim : lim < t - L t
      · rw [if_pos hlim] at hr ⊢
        exact hr
      · rw [if_neg hlim] at hr ⊢
        exact ih m (t + 1) r (by omega) hr
    · rw [if_neg hT] at hr ⊢
      exact hr

/-- Counting remote writes ignores a leading sleep. -/
theorem countRemoteWrites_cons_sleep (L : List Effect) :
    countRemoteWrites (Effect.sleep :: L) = countRemoteWrites L := by
  simp [countRemoteWrites, List.countP_cons]

/-- Counting remote writes ignores a leading debug log. -/
theorem countRemoteWrites_cons_debug (m : String) (L : List Effect) :
    countRemoteWrites (Effect.logDebug m :: L) = countRemoteWrites L := by
  simp [countRemoteWrites, List.countP_cons]

/-- Counting sleeps: a leading sleep adds one. -/
theorem countSleeps_cons_sleep (L : List Effect) :
    countSleeps (Effect.sleep :: L) = countSleeps L + 1 := by
  simp [countSleeps, List.countP_cons]

/-- Counting sleeps ignores a leading debug log. -/
theorem countSleeps_cons_debug (m : String) (L : List Effect) :
    countSleeps (Effect.logDebug m :: L) = countSleeps L := by
  simp [countSleeps, List.countP_cons]

/-- The connect-poll loop writes to the remote peer at most once. -/
theorem stageConnectLoop_writes_le_one (s : Nat → Int) (rp : Bool) (d : Bytes) :
    ∀ fuel i, countRemoteWrites (stageConnectLoop s rp d fuel i) ≤ 1 := by
  intro fuel
  induction fuel with
  | zero =>
    intro i
    simp [stageConnectLoop, countRemoteWrites, List.countP_cons]
  | succ n ih =>
    intro i
    unfold stageConnectLoop
    by_cases h0 : s i = STAGE_CONNECT
    · rw [if_pos h0, countRemoteWrites_cons_sleep]
      exact ih (i + 1)
    · rw [if_neg h0]
      by_cases h1 : s i = STAGE_STREAM
      · rw [if_pos h1]
        cases rp <;>
          simp [countRemoteWrites, List.countP_cons]
      · rw [if_neg h1, countRemoteWrites_cons_debug]
        exact ih (i + 1)

/-- The connect-poll loop sleeps at most once per loop iteration, so at
most `fuel` times in a run. -/
theorem stageConnectLoop_sleeps_le (s : Nat → Int) (rp : Bool) (d : Bytes) :
    ∀ fuel i, countSleeps (stageConnectLoop s rp d fuel i) ≤ fuel := by
  intro fuel
  induction fuel with
  | zero =>
    intro i
    simp [stageConnectLoop, countSleeps, List.countP_cons]
  | succ n ih =>
    intro i
    unfold stageConnectLoop
    by_cases h0 : s i = STAGE_CONNECT
    · rw [if_pos h0, countSleeps_cons_sleep]
      have := ih (i + 1)
      omega
    · rw [if_neg h0]
      by_cases h1 : s i = STAGE_STREAM
      · rw [if_pos h1]
        cases rp <;>
          simp [countSleeps, List.countP_cons]
      · rw [if_neg h1, countSleeps_cons_debug]
        have := ih (i + 1)
        omega

/-- A run of the connect-poll loop that never observes STREAM ends in the
timeout warning and performs no remote write. -/
theorem stageConnectLoop_timeout (s : Nat → Int) (rp : Bool) (d : Bytes) :
    ∀ fuel i, (∀ j, i ≤ j → j < i + fuel → s j ≠ STAGE_STREAM) →
      Effect.logWarning "time out to connect remote" ∈ stageConnectLoop s rp d fuel i ∧
      countRemoteWrites (stageConnectLoop s rp d fuel i) = 0 := by
  intro fuel
  induction fuel with
  | zero =>
    intro i _
    simp [stageConnectLoop, countRemoteWrites, List.countP_cons]
  | succ n ih =>
    intro i hns
    have hi : s i ≠ STAGE_STREAM := hns i (Nat.le_refl i) (by omega)
    have hrec := ih (i + 1) (fun j hj1 hj2 => hns j (by omega) (by omega))
    unfold stageConnectLoop
    by_cases h0 : s i = STAGE_CONNECT
    · rw [if_pos h0, countRemoteWrites_cons_sleep]
      exact ⟨List.mem_cons_of_mem _ hrec.1, hrec.2⟩
    · rw [if_neg h0, if_neg hi, countRemoteWrites_cons_debug]
      exact ⟨List.mem_cons_of_mem _ hrec.1, hrec.2⟩

/-- A run of the connect-poll loop that first observes STREAM at iteration
`m` inside the budget writes to the remote peer exactly once and never logs
the timeout. -/
theorem stageConnectLoop_stream_write (s : Nat → Int) (d : Bytes) :
    ∀ fuel i m, i ≤ m → m < i + fuel → s m = STAGE_STREAM →
      (∀ j, i ≤ j → j < m → s j ≠ STAGE_STREAM) →
      countRemoteWrites (stageConnectLoop s true d fuel i) = 1 ∧
      Effect.logWarning "time out to connect remote" ∉ stageConnectLoop s true d fuel i := by
  intro fuel
  induction fuel with
  | zero => intro i m h1 h2 _ _; omega
  | succ n ih =>
    intro i m him hm hs hfirst
    unfold stageConnectLoop
    by_cases heq : i = m
    · subst heq
      rw [if_neg (by rw [hs]; decide), if_pos hs]
      constructor
      · simp [countRemoteWrites, List.countP_cons]
      · simp
    · have hne : s i ≠ STAGE_STREAM := hfirst i (Nat.le_refl i) (by omega)
      have hrec := ih (i + 1) m (by omega) (by omega) hs
        (fun j hj1 hj2 => hfirst j (by omega) hj2)
      by_cases h0 : s i = STAGE_CONNECT
      · rw [if_pos h0, countRemoteWrites_cons_sleep]
        refine ⟨hrec.1, ?_⟩
        intro hcon
        rcases List.mem_cons.mp hcon with hcon | hcon
        · exact Effect.noConfusion hcon
        · exact hrec.2 hcon
      · rw [if_neg h0, if_neg hne, countRemoteWrites_cons_debug]
        refine ⟨hrec.1, ?_⟩
        intro hcon
        rcases List.mem_cons.mp hcon with hcon | hcon
        · exact Effect.noConfusion hcon
        · exact hrec.2 hcon

/-! Claim theorems. -/

/-- Claim C1 (code bug): the claim says a decryption failure closes the
connection and aborts processing of the chunk, leaving the upload counter
unchanged and dispatching no stage handler.  The code does close, but the
missing early return makes it continue: evaluated on a TCP handler in
STAGE_INIT receiving the undecryptable chunk [9, 9, 9], the upload counter
grows by the ciphertext length (100 to 103) and `_handle_stage_init` is
still scheduled on the raw ciphertext. -/
theorem C1_decrypt_failure_not_aborted :
    Effect.transportClose ∈ (hInitFail.handle_data_received [9, 9, 9]).2 ∧
    (hInitFail.handle_data_received [9, 9, 9]).1.user.once_used_u = 103 ∧
    Effect.scheduleInit [9, 9, 9] ∈ (hInitFail.handle_data_received [9, 9, 9]).2 := by
  decide

/-- Claim C2 (code bug): the claim says a write after a failed admission
check closes the transport, writes no bytes, and leaves the download
counter unchanged.  The code calls `close()` but does not return: evaluated
on a TCP handler with the rejecting admission environment and data
[1, 2, 3], the trace contains the transport close and still the transport
write of those bytes, and the download counter grows from 200 to 203. -/
theorem C2_write_after_reject_still_writes :
    Effect.transportClose ∈ (hInitFail.write envDeny [1, 2, 3]).2 ∧
    Effect.transportWrite [1, 2, 3] ∈ (hInitFail.write envDeny [1, 2, 3]).2 ∧
    (hInitFail.write envDeny [1, 2, 3]).1.user.once_used_d = 203 := by
  decide

/-- Claim C3 (code bug): the claim says a cipher-construction failure
closes the connection and logs a warning.  handlers.py calls
`Cryptor(self._method, self._key)` while cryptor.py requires
`(method, password, flag)`, so construction raises `TypeError`, which the
`except NotImplementedError` branch does not catch: the bare except only
captures to sentry.  Evaluated on a fresh handler with an admitted user,
the trace is exactly [scheduleKeepAlive, sentryCapture] (no transport
close, no warning), the cryptor stays absent and the stage is INIT. -/
theorem C3_cipher_failure_not_closed :
    (hFresh.handle_tcp_connection_made envAllow).2 =
      [Effect.scheduleKeepAlive, Effect.sentryCapture] ∧
    (hFresh.handle_tcp_connection_made envAllow).1.cryptor.isNone = true ∧
    (hFresh.handle_tcp_connection_made envAllow).1.stage = STAGE_INIT := by
  decide

/-- Claim C10: a freshly constructed handler starts at STAGE_DESTROY; the
connection-made callbacks are what move the stage to INIT (TCP only when
the user is admitted, a rejected TCP connection leaves the handler
untouched beyond closing the offered transport); and a chunk delivered to
a fresh handler is never dispatched to any stage handler: the decrypt call
on the absent cryptor raises `AttributeError`, which the bare except turns
into a lone sentry capture with the handler unchanged. -/
theorem C10_initial_stage_destroy :
    (∀ m k u, (mkLocalHandler m k u).stage = STAGE_DESTROY) ∧
    (∀ (env : Env) (h : LocalHandler), env.filter_user h.user = false →
      (h.handle_tcp_connection_made env).1 = h ∧
      (h.handle_tcp_connection_made env).2 = [Effect.transportClose]) ∧
    (∀ (env : Env) (h : LocalHandler), env.filter_user h.user = true →
      (h.handle_tcp_connection_made env).1.stage = STAGE_INIT) ∧
    (∀ h : LocalHandler, (h.handle_udp_connection_made).1.stage = STAGE_INIT) ∧
    (∀ m k u data,
      (mkLocalHandler m k u).handle_data_received data =
        (mkLocalHandler m k u, [Effect.sentryCapture])) := by
  refine ⟨fun m k u => rfl, ?_, ?_, ?_, fun m k u data => rfl⟩
  · intro env h hf
    unfold LocalHandler.handle_tcp_connection_made
    rw [hf]
    exact ⟨rfl, rfl⟩
  · intro env h hf
    unfold LocalHandler.handle_tcp_connection_made
    rw [hf]
    simp [cryptorCallTwoArgs]
  · intro h
    unfold LocalHandler.handle_udp_connection_made
    simp [cryptorCallTwoArgs]

/-- Witness for C10: the hypothesis-bearing conjuncts applied at concrete
inputs (a rejecting environment, an admitting environment, the sample
fresh handler). -/
theorem C10_initial_stage_destroy_witness :
    ((hFresh.handle_tcp_connection_made envDeny).1 = hFresh ∧
      (hFresh.handle_tcp_connection_made envDeny).2 = [Effect.transportClose]) ∧
    (hFresh.handle_tcp_connection_made envAllow).1.stage = STAGE_INIT :=
  ⟨C10_initial_stage_destroy.2.1 envDeny hFresh rfl,
   C10_initial_stage_destroy.2.2.1 envAllow hFresh rfl⟩

/-- Claim C4 (counterexample): the claim says the supervision task does not
keep running after the connection is closed before the timeout.  But
`close()` leaves the transport reference set (first conjunct), so the
supervisor of a connection closed at time 1 still sees the transport
present, keeps ticking to time 21 and then invokes `close()` once more
(second conjunct), instead of stopping at time 1. -/
theorem C4_supervisor_outlives_close :
    (hInitFail.close).1.transport = some () ∧
    keepAliveRun (fun _ => true) (fun _ => 0) 20 30 1 = some (1, 21) ∧
    1 < 21 := by
  decide

/-- Claim C4 as amended: the supervision task invokes `close()` at most
once per run; a connection with no activity past the 20-unit threshold is
closed exactly once (at time 21, given at least 22 ticks of fuel); the
loop terminates as soon as it observes the transport reference absent; but
`close()` itself never clears the transport reference, so a connection
closed early leaves the task running until the idle threshold elapses. -/
theorem C4_keep_alive_amended :
    (∀ (T : Nat → Bool) (L : Nat → Nat) (lim fuel t c tt : Nat),
      keepAliveRun T L lim fuel t = some (c, tt) → c ≤ 1) ∧
    (∀ fuel : Nat, 22 ≤ fuel →
      keepAliveRun (fun _ => true) (fun _ => 0) 20 fuel 0 = some (1, 21)) ∧
    (∀ (T : Nat → Bool) (L : Nat → Nat) (lim fuel t : Nat), T t = false →
      keepAliveRun T L lim (fuel + 1) t = some (0, t)) ∧
    (∀ h : LocalHandler, (h.close).1.transport = h.transport) := by
  refine ⟨?_, ?_, ?_, close_transport⟩
  · intro T L lim fuel t c tt
    exact keepAliveRun_close_le_one T L lim fuel t c tt
  · intro fuel hf
    exact keepAliveRun_mono (fun _ => true) (fun _ => 0) 20 22 fuel 0 (1, 21) hf (by decide)
  · intro T L lim fuel t hT
    simp [keepAliveRun, hT]

/-- Witness for C4: the amended statement applied at concrete inputs: the
never-active always-present supervisor with 25 ticks of fuel closes exactly
once at time 21 (so its close count is at most one), and a supervisor whose
transport is already absent terminates immediately with no close. -/
theorem C4_keep_alive_amended_witness :
    keepAliveRun (fun _ => true) (fun _ => 0) 20 25 0 = some (1, 21) ∧
    (1 : Nat) ≤ 1 ∧
    keepAliveRun (fun _ => false) (fun _ => 0) 20 (3 + 1) 5 = some (0, 5) :=
  ⟨C4_keep_alive_amended.2.1 25 (by decide),
   C4_keep_alive_amended.1 (fun _ => true) (fun _ => 0) 20 25 0 1 21
     (C4_keep_alive_amended.2.1 25 (by decide)),
   C4_keep_alive_amended.2.2.1 (fun _ => false) (fun _ => 0) 20 3 5 rfl⟩

/-- Claim C5 (counterexample): a DomainName header whose declared length 5
exceeds the single remaining byte is delivered to `_handle_stage_init`;
the claim says the connection is closed, but the trace of the code on
[3, 5, 97] contains no transport close (the `struct.error` is swallowed by
the bare except as a sentry capture). -/
theorem C5_truncated_domain_not_closed :
    Effect.transportClose ∉ (hParse.handle_stage_init envAllow [3, 5, 97]).2 := by
  decide

/-- Claim C5 as amended: a DomainName header whose declared length exceeds
the remaining buffer makes the 2-byte port unpack raise `struct.error`,
which the blanket except turns into a lone sentry capture: no address/port
parse result is produced, no outbound connection is attempted and the
handler is unchanged — but the connection is not closed. -/
theorem C5_truncated_domain_rejected (env : Env) (h : LocalHandler)
    (data : Bytes) (n : Nat)
    (h0 : data.head? = some ATYPE_DOMAINNAME)
    (h1 : (data.drop 1).head? = some n)
    (h2 : data.length - 2 < n) :
    h.handle_stage_init env data = (h, [Effect.sentryCapture]) := by
  rcases data with _ | ⟨a0, tl⟩
  · simp at h0
  rcases tl with _ | ⟨a1, tl2⟩
  · simp at h1
  simp only [List.head?_cons, Option.some_inj] at h0
  simp only [List.drop_succ_cons, List.drop_zero, List.head?_cons,
    Option.some_inj] at h1
  subst h0
  subst h1
  have hdrop : (ATYPE_DOMAINNAME :: a1 :: tl2).drop (2 + a1) = [] := by
    apply List.drop_eq_nil_of_le
    simp only [List.length_cons] at h2 ⊢
    omega
  unfold LocalHandler.handle_stage_init
  rw [List.head?_cons]
  dsimp only
  rw [if_neg (by decide), if_neg (by decide), if_pos rfl]
  simp [hdrop, unpackPortBE]

/-- Witness for C5: the amended statement evaluated at the concrete
truncated header [3, 5, 97] (tag DomainName, declared length 5, one
remaining byte). -/
theorem C5_truncated_domain_rejected_witness :
    hParse.handle_stage_init envAllow [3, 5, 97] = (hParse, [Effect.sentryCapture]) :=
  C5_truncated_domain_rejected envAllow hParse [3, 5, 97] 5 rfl rfl (by decide)

/-- Claim C6: for a TCP connection, a successful outbound establishment in
`_handle_stage_init` (here on a well-formed IPv4 header) increments the
user TCP count by exactly one; `close()` decrements it by exactly one when
it is positive; and starting from any nonnegative count, two `close()`
calls never drive it below zero. -/
theorem C6_tcp_count :
    (∀ (env : Env) (h : LocalHandler) (data : Bytes),
      h.transport_protocol = some TransportProtocol.tcp →
      env.connect_outcome = ConnectOutcome.success →
      data.head? = some ATYPE_IPV4 → 7 ≤ data.length →
      (h.handle_stage_init env data).1.user.tcp_count = h.user.tcp_count + 1) ∧
    (∀ h : LocalHandler, h.transport_protocol = some TransportProtocol.tcp →
      0 < h.user.tcp_count →
      (h.close).1.user.tcp_count = h.user.tcp_count - 1) ∧
    (∀ h : LocalHandler, 0 ≤ h.user.tcp_count →
      0 ≤ ((h.close).1.close).1.user.tcp_count) := by
  refine ⟨?_, ?_, ?_⟩
  · intro env h data hp ho hh hlen
    rcases data with _ | ⟨a0, tl⟩
    · simp at hh
    simp only [List.head?_cons, Option.some_inj] at hh
    subst hh
    rcases tl with _ | ⟨b1, tl⟩
    · simp at hlen
    rcases tl with _ | ⟨b2, tl⟩
    · simp at hlen
    rcases tl with _ | ⟨b3, tl⟩
    · simp at hlen
    rcases tl with _ | ⟨b4, tl⟩
    · simp at hlen
    rcases tl with _ | ⟨b5, tl⟩
    · simp at hlen
    rcases tl with _ | ⟨b6, tl⟩
    · simp at hlen
    unfold LocalHandler.handle_stage_init
    rw [List.head?_cons]
    dsimp only
    rw [if_pos rfl]
    simp only [List.drop_succ_cons, List.drop_zero, List.take_succ_cons,
      List.take_zero]
    rw [show inet_ntop4 [b1, b2, b3, b4] = Except.ok [b1, b2, b3, b4] from rfl]
    dsimp only
    rw [show unpackPortBE [b5, b6] = Except.ok (b5 * 256 + b6) from rfl]
    dsimp only
    unfold LocalHandler.stage_init_connect
    rw [hp]
    dsimp only
    rw [ho]
  · intro h hp hpos
    unfold LocalHandler.close
    rw [hp]
    simp [if_pos hpos]
  · intro h hn
    exact close_tcp_count_nonneg _ (close_tcp_count_nonneg h hn)

/-- Witness for C6: the three conjuncts applied to the concrete handler
`hParse` (TCP, count 1) and the concrete IPv4 header
[4, 1, 2, 3, 4, 0, 80]. -/
theorem C6_tcp_count_witness :
    (hParse.handle_stage_init envAllow [4, 1, 2, 3, 4, 0, 80]).1.user.tcp_count
        = hParse.user.tcp_count + 1 ∧
    (hParse.close).1.user.tcp_count = hParse.user.tcp_count - 1 ∧
    0 ≤ ((hParse.close).1.close).1.user.tcp_count :=
  ⟨C6_tcp_count.1 envAllow hParse [4, 1, 2, 3, 4, 0, 80] rfl rfl rfl (by decide),
   C6_tcp_count.2.1 hParse rfl (by decide),
   C6_tcp_count.2.2 hParse (by decide)⟩

/-- Claim C7: the stage-CONNECT handler polls at most 25 times (at most 25
sleeps of 0.2 units) and writes to the remote peer at most once; a run
that never observes STREAM within its 25 polls logs the timeout warning
and performs no remote write; a run that first observes STREAM inside the
budget forwards the held data exactly once and never logs the timeout. -/
theorem C7_connect_poll :
    (∀ (s : Nat → Int) (rp : Bool) (d : Bytes),
      countRemoteWrites (stageConnectLoop s rp d 25 0) ≤ 1 ∧
      countSleeps (stageConnectLoop s rp d 25 0) ≤ 25) ∧
    (∀ (s : Nat → Int) (rp : Bool) (d : Bytes),
      (∀ i, i < 25 → s i ≠ STAGE_STREAM) →
      Effect.logWarning "time out to connect remote" ∈ stageConnectLoop s rp d 25 0 ∧
      countRemoteWrites (stageConnectLoop s rp d 25 0) = 0) ∧
    (∀ (s : Nat → Int) (d : Bytes) (m : Nat), m < 25 → s m = STAGE_STREAM →
      (∀ j, j < m → s j ≠ STAGE_STREAM) →
      countRemoteWrites (stageConnectLoop s true d 25 0) = 1 ∧
      Effect.logWarning "time out to connect remote" ∉ stageConnectLoop s true d 25 0) := by
  refine ⟨?_, ?_, ?_⟩
  · intro s rp d
    exact ⟨stageConnectLoop_writes_le_one s rp d 25 0,
      stageConnectLoop_sleeps_le s rp d 25 0⟩
  · intro s rp d hns
    exact stageConnectLoop_timeout s rp d 25 0 (fun j _ hj2 => hns j (by omega))
  · intro s d m hm hs hfirst
    exact stageConnectLoop_stream_write s d 25 0 m (Nat.zero_le m) (by omega) hs
      (fun j _ hj2 => hfirst j hj2)

/-- Witness for C7: the exhausted-budget conjunct on a history that stays
CONNECT forever, and the success conjunct on a history that reaches STREAM
at the fourth poll. -/
theorem C7_connect_poll_witness :
    (Effect.logWarning "time out to connect remote"
        ∈ stageConnectLoop (fun _ => STAGE_CONNECT) true [1] 25 0 ∧
      countRemoteWrites (stageConnectLoop (fun _ => STAGE_CONNECT) true [1] 25 0) = 0) ∧
    (countRemoteWrites (stageConnectLoop sWit true [2] 25 0) = 1 ∧
      Effect.logWarning "time out to connect remote" ∉ stageConnectLoop sWit true [2] 25 0) :=
  ⟨C7_connect_poll.2.1 (fun _ => STAGE_CONNECT) true [1]
     (fun i _ => (by decide : STAGE_CONNECT ≠ STAGE_STREAM)),
   C7_connect_poll.2.2 sWit [2] 3 (by decide)
     (by simp [sWit])
     (fun j hj => by
       simp only [sWit, if_pos hj]
       decide)⟩

/-- Claim C8 (counterexample): the claim says no new inbound payload
processing happens after Stage = DESTROY.  But a chunk delivered to a
destroyed handler is still decrypted and accounted: on the 5-byte chunk
[9, 9, 9, 9, 9] (plaintext length 3) the upload counter of the destroyed
handler grows from 100 to 103. -/
theorem C8_destroyed_still_processes :
    hDestroyed.stage = STAGE_DESTROY ∧
    (hDestroyed.handle_data_received [9, 9, 9, 9, 9]).1.user.once_used_u = 103 := by
  decide

/-- Claim C8 as amended: data is never forwarded to the outbound peer
while the stage is not STREAM, and after DESTROY no stage handler is
dispatched (no scheduled init or connect coroutine, no relay) — but the
chunk is still decrypted and its plaintext length still added to the
upload counter. -/
theorem C8_no_relay_before_stream :
    (∀ (h : LocalHandler) (data d : Bytes), h.stage ≠ STAGE_STREAM →
      Effect.remoteWrite d ∉ (h.handle_data_received data).2) ∧
    (∀ (h : LocalHandler) (data d : Bytes), h.stage = STAGE_DESTROY →
      Effect.scheduleInit d ∉ (h.handle_data_received data).2 ∧
      Effect.scheduleConnect d ∉ (h.handle_data_received data).2 ∧
      Effect.remoteWrite d ∉ (h.handle_data_received data).2) ∧
    (∀ (h : LocalHandler) (c : Cryptor) (data plain : Bytes),
      h.stage = STAGE_DESTROY → h.cryptor = some c →
      c.decrypt data = Except.ok plain →
      (h.handle_data_received data).1.user.once_used_u
        = h.user.once_used_u + plain.length) := by
  refine ⟨data_received_no_remote_write, data_received_destroy_no_dispatch, ?_⟩
  intro h c data plain _ hc hd
  exact data_received_ok_once_used_u h c data plain hc hd

/-- Witness for C8: the amended statement applied to a handler in
CONNECT (not STREAM) and to the destroyed handler with a concrete
chunk. -/
theorem C8_no_relay_before_stream_witness :
    Effect.remoteWrite [1] ∉ (hConnectFail.handle_data_received [7, 7]).2 ∧
    Effect.scheduleInit [2] ∉ (hDestroyed.handle_data_received [7, 7]).2 ∧
    (hDestroyed.handle_data_received [5, 5, 5]).1.user.once_used_u
      = hDestroyed.user.once_used_u + 1 :=
  ⟨C8_no_relay_before_stream.1 hConnectFail [7, 7] [1] (by decide),
   (C8_no_relay_before_stream.2.1 hDestroyed [7, 7] [2] rfl).1,
   C8_no_relay_before_stream.2.2 hDestroyed stripTwoCryptor [5, 5, 5] [5] rfl rfl rfl⟩

/-- Claim C9 (counterexample): the claim says the upload counter grows by
exactly the decrypted plaintext length for every inbound chunk.  The chunk
[7, 7, 7, 7] fails decryption (no plaintext exists at all), yet the upload
counter grows by the ciphertext length 4, framing bytes included. -/
theorem C9_ciphertext_length_counted :
    failCryptor.decrypt [7, 7, 7, 7] = Except.error PyError.runtimeError ∧
    (hConnectFail.handle_data_received [7, 7, 7, 7]).1.user.once_used_u = 104 := by
  exact ⟨rfl, by decide⟩

/-- Claim C9 as amended: a chunk whose decryption succeeds adds exactly
the plaintext length to the upload counter; a chunk whose decryption
fails adds the ciphertext length instead (the missing abort); and a TCP
`write(data)` whose transport write raises nothing adds exactly
`len(data)` to the download counter. -/
theorem C9_counters_amended :
    (∀ (h : LocalHandler) (c : Cryptor) (data plain : Bytes),
      h.cryptor = some c → c.decrypt data = Except.ok plain →
      (h.handle_data_received data).1.user.once_used_u
        = h.user.once_used_u + plain.length) ∧
    (∀ (h : LocalHandler) (c : Cryptor) (data : Bytes) (e : PyError),
      h.cryptor = some c → c.decrypt data = Except.error e →
      (h.handle_data_received data).1.user.once_used_u
        = h.user.once_used_u + data.length) ∧
    (∀ (env : Env) (h : LocalHandler) (data : Bytes),
      env.filter_user h.user = true →
      h.transport_protocol = some TransportProtocol.tcp →
      h.transport = some () →
      env.write_raises_memory_error = false →
      (h.write env data).1.user.once_used_d = h.user.once_used_d + data.length) := by
  refine ⟨data_received_ok_once_used_u, data_received_err_once_used_u, ?_⟩
  intro env h data hf hp ht hm
  simp [LocalHandler.write, hf, hp, ht, hm]

/-- Witness for C9: the amended statement applied to the streaming handler
(successful decryption of a 5-byte chunk to a 3-byte plaintext), to the
failing handler (2-byte undecryptable chunk), and to a 2-byte TCP
write. -/
theorem C9_counters_amended_witness :
    (hStreamOk.handle_data_received [1, 2, 3, 4, 5]).1.user.once_used_u
        = hStreamOk.user.once_used_u + 3 ∧
    (hInitFail.handle_data_received [8, 8]).1.user.once_used_u
        = hInitFail.user.once_used_u + 2 ∧
    (hStreamOk.write envAllow [1, 2]).1.user.once_used_d
        = hStreamOk.user.once_used_d + 2 :=
  ⟨C9_counters_amended.1 hStreamOk stripTwoCryptor [1, 2, 3, 4, 5] [3, 4, 5] rfl rfl,
   C9_counters_amended.2.1 hInitFail failCryptor [8, 8] PyError.runtimeError rfl rfl,
   C9_counters_amended.2.2 envAllow hStreamOk [1, 2] rfl rfl rfl rfl⟩

end SS

